import Mathlib

set_option maxRecDepth 8000

/-!
Verification of the poly-sdk Dip-Arbitrage Engine and market services.

Shallow embedding of `src/services/dip-arb-service.ts`,
`src/services/dip-arb-types.ts` and the orderbook analytics of
`src/services/market-service.ts`.  Prices are rationals, timestamps are
integers (milliseconds), stateful code is explicit state passing.
Order placement and on-chain RPC outcomes are supplied as parameters.
-/

namespace PolySdk

/-- UP/DOWN outcome side (`DipArbSide` in dip-arb-types.ts). -/
inductive DipArbSide
  | UP
  | DOWN
  deriving DecidableEq, Repr

/-- Round phase (`DipArbPhase` in dip-arb-types.ts). -/
inductive DipArbPhase
  | waiting
  | leg1_filled
  | completed
  | expired
  deriving DecidableEq, Repr

/-- Leg1 signal source tag (`'dip' | 'surge' | 'mispricing'`). -/
inductive SignalSource
  | dip
  | surge
  | mispricing
  deriving DecidableEq, Repr

/-- One orderbook level (price, size). -/
structure PriceLevel where
  price : ℚ
  size : ℚ
  deriving DecidableEq, Repr

/-- One entry of the price-history ring: `{timestamp, upAsk, downAsk}`. -/
structure HistEntry where
  timestamp : ℤ
  upAsk : ℚ
  downAsk : ℚ
  deriving DecidableEq, Repr

/-- `DipArbLegInfo`: one executed half of the pair. -/
structure DipArbLegInfo where
  side : DipArbSide
  price : ℚ
  shares : ℚ
  timestamp : ℤ
  tokenId : String
  deriving DecidableEq, Repr

/-- `DipArbRoundState` (dip-arb-types.ts). `openUp`/`openDown` embed the
`openPrices` object. -/
structure DipArbRoundState where
  roundId : String
  startTime : ℤ
  endTime : ℤ
  priceToBeat : ℚ
  openUp : ℚ
  openDown : ℚ
  phase : DipArbPhase
  leg1 : Option DipArbLegInfo := none
  leg2 : Option DipArbLegInfo := none
  totalCost : Option ℚ := none
  profit : Option ℚ := none
  deriving DecidableEq, Repr

/-- `DipArbConfigInternal` (dip-arb-types.ts), without the log handler. -/
structure DipArbConfig where
  shares : ℚ
  sumTarget : ℚ
  dipThreshold : ℚ
  windowMinutes : ℚ
  slidingWindowMs : ℤ
  maxSlippage : ℚ
  minProfitRate : ℚ
  leg2TimeoutSeconds : ℚ
  enableSurge : Bool
  surgeThreshold : ℚ
  autoMerge : Bool
  autoExecute : Bool
  executionCooldown : ℤ
  deriving DecidableEq, Repr

/-- `DEFAULT_DIP_ARB_CONFIG` (dip-arb-types.ts). -/
def DEFAULT_DIP_ARB_CONFIG : DipArbConfig where
  shares := 20
  sumTarget := 95/100
  dipThreshold := 15/100
  windowMinutes := 2
  slidingWindowMs := 3000
  maxSlippage := 2/100
  minProfitRate := 3/100
  leg2TimeoutSeconds := 300
  enableSurge := true
  surgeThreshold := 15/100
  autoMerge := true
  autoExecute := false
  executionCooldown := 3000

/-- `DipArbMarketConfig` (dip-arb-types.ts); `endTime` as Unix milliseconds. -/
structure DipArbMarketConfig where
  name : String
  slug : String
  conditionId : String
  upTokenId : String
  downTokenId : String
  durationMinutes : ℤ
  endTime : ℤ
  deriving DecidableEq, Repr

/-- `DipArbStats` (dip-arb-types.ts), counters portion. -/
structure DipArbStats where
  startTime : ℤ
  runningTimeMs : ℤ
  roundsMonitored : ℕ
  roundsCompleted : ℕ
  roundsSuccessful : ℕ
  roundsExpired : ℕ
  signalsDetected : ℕ
  leg1Filled : ℕ
  leg2Filled : ℕ
  totalSpent : ℚ
  totalProfit : ℚ
  avgProfitRate : ℚ
  deriving DecidableEq, Repr

/-- `createDipArbInitialStats` (dip-arb-types.ts): all counters zero,
`startTime = Date.now()`. -/
def createDipArbInitialStats (now : ℤ) : DipArbStats where
  startTime := now
  runningTimeMs := 0
  roundsMonitored := 0
  roundsCompleted := 0
  roundsSuccessful := 0
  roundsExpired := 0
  signalsDetected := 0
  leg1Filled := 0
  leg2Filled := 0
  totalSpent := 0
  totalProfit := 0
  avgProfitRate := 0

/-- `createDipArbRoundState` (dip-arb-types.ts). -/
def createDipArbRoundState (roundId : String) (priceToBeat upPrice downPrice : ℚ)
    (durationMinutes : ℤ) (now : ℤ) : DipArbRoundState where
  roundId := roundId
  startTime := now
  endTime := now + durationMinutes * 60 * 1000
  priceToBeat := priceToBeat
  openUp := upPrice
  openDown := downPrice
  phase := .waiting

/-- `calculateDipArbProfitRate` (dip-arb-types.ts):
`totalCost >= 1 || totalCost <= 0` gives 0, otherwise `(1-c)/c`. -/
def calculateDipArbProfitRate (totalCost : ℚ) : ℚ :=
  if 1 ≤ totalCost ∨ totalCost ≤ 0 then 0 else (1 - totalCost) / totalCost

/-- `estimateUpWinRate` (dip-arb-types.ts): clamp(0.5 + 10·Δ/p, 0.05, 0.95). -/
def estimateUpWinRate (currentPrice priceToBeat : ℚ) : ℚ :=
  if priceToBeat ≤ 0 then 1/2
  else
    let priceChange := (currentPrice - priceToBeat) / priceToBeat
    let winRateShift := priceChange * 10
    max (5/100) (min (95/100) (1/2 + winRateShift))

/-- `detectMispricing` (dip-arb-types.ts). -/
def detectMispricing (tokenPrice estimatedWinRate : ℚ) : ℚ :=
  estimatedWinRate - tokenPrice

/-- `DipArbLeg1Signal` (dip-arb-types.ts), without the optional `btcInfo`
diagnostics block. -/
structure DipArbLeg1Signal where
  roundId : String
  dipSide : DipArbSide
  currentPrice : ℚ
  openPrice : ℚ
  dropPercent : ℚ
  targetPrice : ℚ
  shares : ℚ
  tokenId : String
  oppositeAsk : ℚ
  estimatedTotalCost : ℚ
  estimatedProfitRate : ℚ
  source : SignalSource
  deriving DecidableEq, Repr

/-- `DipArbLeg2Signal` (dip-arb-types.ts). -/
structure DipArbLeg2Signal where
  roundId : String
  hedgeSide : DipArbSide
  leg1 : DipArbLegInfo
  currentPrice : ℚ
  targetPrice : ℚ
  totalCost : ℚ
  expectedProfitRate : ℚ
  shares : ℚ
  tokenId : String
  deriving DecidableEq, Repr

/-- `DipArbSignal = DipArbLeg1Signal | DipArbLeg2Signal`. -/
inductive DipArbSignal
  | leg1 (s : DipArbLeg1Signal)
  | leg2 (s : DipArbLeg2Signal)
  deriving DecidableEq, Repr

/-- The mutable per-engine state of `DipArbService`.  `hasTrading` models
whether `tradingService` is non-null; `autoRotateEnabled` models
`autoRotateConfig.enabled`. -/
structure EngineState where
  market : Option DipArbMarketConfig
  currentRound : Option DipArbRoundState
  isRunning : Bool
  hasTrading : Bool
  isExecuting : Bool
  lastExecutionTime : ℤ
  config : DipArbConfig
  stats : DipArbStats
  upAsks : List PriceLevel
  downAsks : List PriceLevel
  priceHistory : List HistEntry
  currentUnderlyingPrice : ℚ
  leg1SignalEmitted : Bool
  autoRotateEnabled : Bool
  deriving DecidableEq, Repr

/-- `this.xxxAsks[0]?.price ?? d`: best ask of a ladder with default. -/
def bestAskD (levels : List PriceLevel) (d : ℚ) : ℚ :=
  match levels.head? with
  | some l => l.price
  | none => d

/-- The best ask of the given side's cached ladder with default 1, as used
in `detectLeg1Signal`/`detectLeg2Signal`. -/
def sideBestAsk (s : EngineState) (side : DipArbSide) : ℚ :=
  match side with
  | .UP => bestAskD s.upAsks 1
  | .DOWN => bestAskD s.downAsks 1

/-- The opposite side (`leg1.side === 'UP' ? 'DOWN' : 'UP'`). -/
def oppositeSide : DipArbSide → DipArbSide
  | .UP => .DOWN
  | .DOWN => .UP

/-- Token id for a side of the market. -/
def sideTokenId (mk : DipArbMarketConfig) : DipArbSide → String
  | .UP => mk.upTokenId
  | .DOWN => mk.downTokenId

/-- `MAX_HISTORY_LENGTH` (dip-arb-service.ts line 116). -/
def MAX_HISTORY_LENGTH : ℕ := 100

/-- `recordPriceHistory` (dip-arb-service.ts lines 726-743). -/
def recordPriceHistory (s : EngineState) (now : ℤ) : EngineState :=
  let upAsk := bestAskD s.upAsks 0
  let downAsk := bestAskD s.downAsks 0
  if upAsk ≤ 0 ∨ downAsk ≤ 0 then s
  else
    let h := s.priceHistory ++ [⟨now, upAsk, downAsk⟩]
    let h := if MAX_HISTORY_LENGTH < h.length then h.drop (h.length - MAX_HISTORY_LENGTH) else h
    { s with priceHistory := h }

/-- The most recent history entry at or before `targetTime`
(the backwards loop of `getPriceFromHistory`). -/
def histRefEntry (history : List HistEntry) (targetTime : ℤ) : Option HistEntry :=
  history.reverse.find? (fun e => decide (e.timestamp ≤ targetTime))

/-- `getPriceFromHistory` (dip-arb-service.ts lines 752-764). -/
def getPriceFromHistory (history : List HistEntry) (side : DipArbSide) (msAgo : ℤ)
    (now : ℤ) : Option ℚ :=
  (histRefEntry history (now - msAgo)).map fun e =>
    match side with
    | .UP => e.upAsk
    | .DOWN => e.downAsk

/-- `detectLeg2Signal` (dip-arb-service.ts lines 1051-1091). -/
def detectLeg2Signal (s : EngineState) : Option DipArbLeg2Signal :=
  match s.currentRound, s.market with
  | some round, some mk =>
    match round.leg1 with
    | some leg1 =>
      let hedgeSide := oppositeSide leg1.side
      let currentPrice := sideBestAsk s hedgeSide
      if 1 ≤ currentPrice then none
      else
        let targetPrice := currentPrice * (1 + s.config.maxSlippage)
        let totalCost := leg1.price + targetPrice
        if s.config.sumTarget < totalCost then none
        else some
          { roundId := round.roundId
            hedgeSide := hedgeSide
            leg1 := leg1
            currentPrice := currentPrice
            targetPrice := targetPrice
            totalCost := totalCost
            expectedProfitRate := calculateDipArbProfitRate totalCost
            shares := s.config.shares
            tokenId := sideTokenId mk hedgeSide }
    | none => none
  | _, _ => none

/-- `createLeg1Signal` (dip-arb-service.ts lines 1003-1049); the optional
`btcInfo` diagnostics block is not carried in the record. -/
def createLeg1Signal (cfg : DipArbConfig) (round : DipArbRoundState) (mk : DipArbMarketConfig)
    (side : DipArbSide) (price oppositeAsk : ℚ) (source : SignalSource)
    (dropPercent : ℚ) (referencePrice : Option ℚ) : DipArbLeg1Signal :=
  let targetPrice := price * (1 + cfg.maxSlippage)
  let estimatedTotalCost := targetPrice + oppositeAsk
  let estimatedProfitRate := calculateDipArbProfitRate estimatedTotalCost
  let openPrice := referencePrice.getD
    (match side with | .UP => round.openUp | .DOWN => round.openDown)
  { roundId := round.roundId
    dipSide := side
    currentPrice := price
    openPrice := openPrice
    dropPercent := dropPercent
    targetPrice := targetPrice
    shares := cfg.shares
    tokenId := sideTokenId mk side
    oppositeAsk := oppositeAsk
    estimatedTotalCost := estimatedTotalCost
    estimatedProfitRate := estimatedProfitRate
    source := source }

/-- `validateSignalProfitability` (dip-arb-service.ts lines 1093-1122). -/
def validateSignalProfitability (cfg : DipArbConfig) (sig : DipArbLeg1Signal) : Bool :=
  if sig.currentPrice ≤ 0 ∨ 1 ≤ sig.currentPrice then false
  else if sig.dropPercent < cfg.dipThreshold then false
  else true

/-- `if (signal && this.validateSignalProfitability(signal)) return signal;`
followed by fall-through to the next pattern. -/
def validatedOrNone (cfg : DipArbConfig) (sig : DipArbLeg1Signal) : Option DipArbLeg1Signal :=
  if validateSignalProfitability cfg sig then some sig else none

/-- One instant-dip branch of `detectLeg1Signal` (lines 911-936). -/
def leg1DipCandidate (cfg : DipArbConfig) (round : DipArbRoundState) (mk : DipArbMarketConfig)
    (side : DipArbSide) (price opp : ℚ) (refAgo : Option ℚ) : Option DipArbLeg1Signal :=
  match refAgo with
  | some ago =>
    if 0 < ago then
      let drop := (ago - price) / ago
      if cfg.dipThreshold ≤ drop then
        validatedOrNone cfg (createLeg1Signal cfg round mk side price opp .dip drop (some ago))
      else none
    else none
  | none => none

/-- One instant-surge branch of `detectLeg1Signal` (lines 942-972): the
surging side's move is measured, the opposite side is bought, and the
recorded reference is the bought side's sliding-window value. -/
def leg1SurgeCandidate (cfg : DipArbConfig) (round : DipArbRoundState) (mk : DipArbMarketConfig)
    (buySide : DipArbSide) (buyPrice opp : ℚ) (surgedAgo surgedNow buyRef : ℚ) :
    Option DipArbLeg1Signal :=
  if 0 < surgedAgo then
    let surge := (surgedNow - surgedAgo) / surgedAgo
    if cfg.surgeThreshold ≤ surge then
      validatedOrNone cfg (createLeg1Signal cfg round mk buySide buyPrice opp .surge surge (some buyRef))
    else none
  else none

/-- One mispricing branch of `detectLeg1Signal` (lines 978-998). -/
def leg1MispricingCandidate (cfg : DipArbConfig) (round : DipArbRoundState)
    (mk : DipArbMarketConfig) (side : DipArbSide) (price opp mis : ℚ) :
    Option DipArbLeg1Signal :=
  if cfg.dipThreshold ≤ mis then
    validatedOrNone cfg (createLeg1Signal cfg round mk side price opp .mispricing mis none)
  else none

/-- `detectLeg1Signal` (dip-arb-service.ts lines 883-1001): window gate,
price sanity gate, then the patterns in source order
(dip UP, dip DOWN, surge, mispricing), each falling through on
failed validation. -/
def detectLeg1Signal (s : EngineState) (now : ℤ) : Option DipArbLeg1Signal :=
  match s.currentRound, s.market with
  | some round, some mk =>
    let elapsedMin : ℚ := ((now - round.startTime : ℤ) : ℚ) / 60000
    if s.config.windowMinutes < elapsedMin then none
    else
      let upPrice := bestAskD s.upAsks 1
      let downPrice := bestAskD s.downAsks 1
      if 1 ≤ upPrice ∨ 1 ≤ downPrice ∨ round.openUp ≤ 0 ∨ round.openDown ≤ 0 then none
      else
        let upPriceAgo := getPriceFromHistory s.priceHistory .UP s.config.slidingWindowMs now
        let downPriceAgo := getPriceFromHistory s.priceHistory .DOWN s.config.slidingWindowMs now
        let surgePart : Option DipArbLeg1Signal :=
          match s.config.enableSurge, upPriceAgo, downPriceAgo with
          | true, some upAgo, some downAgo =>
            leg1SurgeCandidate s.config round mk .DOWN downPrice upPrice upAgo upPrice downAgo <|>
            leg1SurgeCandidate s.config round mk .UP upPrice downPrice downAgo downPrice upAgo
          | _, _, _ => none
        let misPart : Option DipArbLeg1Signal :=
          if 0 < round.priceToBeat ∧ 0 < s.currentUnderlyingPrice then
            let wr := estimateUpWinRate s.currentUnderlyingPrice round.priceToBeat
            leg1MispricingCandidate s.config round mk .UP upPrice downPrice
              (detectMispricing upPrice wr) <|>
            leg1MispricingCandidate s.config round mk .DOWN downPrice upPrice
              (detectMispricing downPrice (1 - wr))
          else none
        leg1DipCandidate s.config round mk .UP upPrice downPrice upPriceAgo <|>
        leg1DipCandidate s.config round mk .DOWN downPrice upPrice downPriceAgo <|>
        surgePart <|> misPart
  | _, _ => none

/-- `detectSignal` (dip-arb-service.ts lines 870-881): dispatch by phase. -/
def detectSignal (s : EngineState) (now : ℤ) : Option DipArbSignal :=
  match s.currentRound, s.market with
  | some round, some _ =>
    match round.phase with
    | .waiting => (detectLeg1Signal s now).map .leg1
    | .leg1_filled => (detectLeg2Signal s).map .leg2
    | _ => none
  | _, _ => none

/-- Status of a finished round (`DipArbRoundResult.status`);
`incomplete` models the source's `'partial'` status. -/
inductive RoundStatus
  | completed
  | expired
  | incomplete
  deriving DecidableEq, Repr

/-- `DipArbRoundResult` (dip-arb-types.ts). -/
structure DipArbRoundResult where
  roundId : String
  status : RoundStatus
  leg1 : Option DipArbLegInfo := none
  leg2 : Option DipArbLegInfo := none
  totalCost : Option ℚ := none
  profit : Option ℚ := none
  profitRate : Option ℚ := none
  merged : Bool := false
  deriving DecidableEq, Repr

/-- Which leg an execution result belongs to. -/
inductive ExecLeg
  | leg1
  | leg2
  | merge
  deriving DecidableEq, Repr

/-- `DipArbExecutionResult` (dip-arb-types.ts), core fields. -/
structure DipArbExecutionResult where
  success : Bool
  leg : ExecLeg
  roundId : String
  side : Option DipArbSide := none
  price : Option ℚ := none
  shares : Option ℚ := none
  deriving DecidableEq, Repr

/-- Events emitted by the engine on the paths modelled here. -/
inductive EngineEvent
  | newRound (roundId : String) (priceToBeat upOpen downOpen : ℚ) (startTime endTime : ℤ)
  | signalEvt (sig : DipArbSignal)
  | execution (res : DipArbExecutionResult)
  | roundComplete (res : DipArbRoundResult)
  deriving DecidableEq, Repr

/-- `executeLeg1` (dip-arb-service.ts lines 467-535); the market-order
outcome is the `orderSuccess` parameter. -/
def executeLeg1Op (s : EngineState) (sig : DipArbLeg1Signal) (orderSuccess : Bool)
    (now : ℤ) : EngineState × DipArbExecutionResult :=
  match s.hasTrading, s.market, s.currentRound with
  | true, some _, some round =>
    if orderSuccess then
      let leg1 : DipArbLegInfo :=
        { side := sig.dipSide, price := sig.targetPrice, shares := sig.shares,
          timestamp := now, tokenId := sig.tokenId }
      let round' := { round with leg1 := some leg1, phase := .leg1_filled }
      ({ s with currentRound := some round',
                stats := { s.stats with leg1Filled := s.stats.leg1Filled + 1 },
                lastExecutionTime := now },
       { success := true, leg := .leg1, roundId := sig.roundId, side := some sig.dipSide,
         price := some sig.targetPrice, shares := some sig.shares })
    else (s, { success := false, leg := .leg1, roundId := sig.roundId })
  | _, _, _ => (s, { success := false, leg := .leg1, roundId := sig.roundId })

/-- `executeLeg2` (dip-arb-service.ts lines 540-634); increments
`leg2Filled` and `roundsSuccessful` (and only those round counters),
emits `roundComplete(completed)`. -/
def executeLeg2Op (s : EngineState) (sig : DipArbLeg2Signal) (orderSuccess : Bool)
    (now : ℤ) : EngineState × DipArbExecutionResult × List EngineEvent :=
  match s.hasTrading, s.market, s.currentRound with
  | true, some _, some round =>
    if orderSuccess then
      let leg2 : DipArbLegInfo :=
        { side := sig.hedgeSide, price := sig.targetPrice, shares := sig.shares,
          timestamp := now, tokenId := sig.tokenId }
      let round' := { round with
        leg2 := some leg2
        phase := DipArbPhase.completed
        totalCost := some sig.totalCost
        profit := some (1 - sig.totalCost) }
      let stats' := { s.stats with
        leg2Filled := s.stats.leg2Filled + 1
        roundsSuccessful := s.stats.roundsSuccessful + 1
        totalProfit := s.stats.totalProfit + (1 - sig.totalCost) * sig.shares
        totalSpent := s.stats.totalSpent + sig.totalCost * sig.shares }
      let res : DipArbRoundResult :=
        { roundId := sig.roundId, status := .completed, leg1 := round'.leg1,
          leg2 := round'.leg2, totalCost := some sig.totalCost,
          profit := some (1 - sig.totalCost),
          profitRate := some (calculateDipArbProfitRate sig.totalCost), merged := false }
      ({ s with currentRound := some round', stats := stats', lastExecutionTime := now },
       { success := true, leg := .leg2, roundId := sig.roundId, side := some sig.hedgeSide,
         price := some sig.targetPrice, shares := some sig.shares },
       [.roundComplete res])
    else (s, { success := false, leg := .leg2, roundId := sig.roundId }, [])
  | _, _, _ => (s, { success := false, leg := .leg2, roundId := sig.roundId }, [])

/-- `handleSignal` (dip-arb-service.ts lines 1126-1153): count the signal,
emit it, and auto-execute when enabled, not already executing, and the
cooldown has elapsed. -/
def handleSignal (s : EngineState) (sig : DipArbSignal) (now : ℤ) (orderSuccess : Bool) :
    EngineState × List EngineEvent :=
  let s := { s with stats := { s.stats with signalsDetected := s.stats.signalsDetected + 1 } }
  let evs := [EngineEvent.signalEvt sig]
  if s.config.autoExecute ∧ ¬ s.isExecuting then
    if s.config.executionCooldown ≤ now - s.lastExecutionTime then
      match sig with
      | .leg1 l =>
        let (s', res) := executeLeg1Op s l orderSuccess now
        (s', evs ++ [.execution res])
      | .leg2 l =>
        let (s', res, evs2) := executeLeg2Op s l orderSuccess now
        (s', evs ++ evs2 ++ [.execution res])
    else (s, evs)
  else (s, evs)

/-- `checkAndStartNewRound` (dip-arb-service.ts lines 795-866): create a
fresh round when none is active (unless the market has ended), then run
the Leg2-timeout expiry check. -/
def checkAndStartNewRound (s : EngineState) (now : ℤ) : EngineState × List EngineEvent :=
  match s.market with
  | none => (s, [])
  | some mk =>
    let noActiveRound : Bool :=
      match s.currentRound with
      | none => true
      | some r => r.phase == DipArbPhase.completed || r.phase == DipArbPhase.expired
    let (s1, evs1) :=
      if noActiveRound then
        if mk.endTime ≤ now then (s, [])
        else
          let upPrice := bestAskD s.upAsks (1/2)
          let downPrice := bestAskD s.downAsks (1/2)
          let priceToBeat := s.currentUnderlyingPrice
          let roundId := mk.slug ++ "-" ++ toString now
          let round := createDipArbRoundState roundId priceToBeat upPrice downPrice
            mk.durationMinutes now
          ({ s with currentRound := some round, priceHistory := [],
                    leg1SignalEmitted := false,
                    stats := { s.stats with roundsMonitored := s.stats.roundsMonitored + 1 } },
           [.newRound roundId priceToBeat upPrice downPrice round.startTime round.endTime])
      else (s, [])
    match s1.currentRound with
    | some r =>
      if r.phase = DipArbPhase.leg1_filled then
        let baseTs := match r.leg1 with
          | some l => if l.timestamp = 0 then r.startTime else l.timestamp
          | none => r.startTime
        let elapsedSec : ℚ := ((now - baseTs : ℤ) : ℚ) / 1000
        if s1.config.leg2TimeoutSeconds < elapsedSec then
          let r' := { r with phase := DipArbPhase.expired }
          ({ s1 with
              currentRound := some r'
              stats := { s1.stats with
                roundsExpired := s1.stats.roundsExpired + 1
                roundsCompleted := s1.stats.roundsCompleted + 1 } },
           evs1 ++ [.roundComplete { roundId := r.roundId, status := .expired,
                                     leg1 := r.leg1, merged := false }])
        else (s1, evs1)
      else (s1, evs1)
    | none => (s1, evs1)

/-- An incoming orderbook snapshot for one token (asks portion, the only
part `handleOrderbookUpdate` consumes). -/
structure BookUpdate where
  tokenId : String
  asks : List PriceLevel
  deriving DecidableEq, Repr

/-- The ask-cache refresh at the top of `handleOrderbookUpdate`
(dip-arb-service.ts lines 698-708). -/
def updateAskCache (s : EngineState) (book : BookUpdate) (mk : DipArbMarketConfig) :
    EngineState :=
  if book.tokenId = mk.upTokenId then { s with upAsks := book.asks }
  else if book.tokenId = mk.downTokenId then { s with downAsks := book.asks }
  else s

/-- `handleOrderbookUpdate` (dip-arb-service.ts lines 695-721): refresh the
ask cache, record history, manage rounds, detect and handle a signal. -/
def handleOrderbookUpdate (s : EngineState) (book : BookUpdate) (now : ℤ)
    (orderSuccess : Bool) : EngineState × List EngineEvent :=
  match s.market with
  | none => (s, [])
  | some mk =>
    let s := updateAskCache s book mk
    let s := recordPriceHistory s now
    let (s, evs1) := checkAndStartNewRound s now
    match detectSignal s now with
    | some sig =>
      let (s', evs2) := handleSignal s sig now orderSuccess
      (s', evs1 ++ evs2)
    | none => (s, evs1)

/-- `start(market)` (dip-arb-service.ts lines 286-378): fails when already
running or a token id is missing; resets statistics and price history.
Subscriptions and waiting for transport readiness have no state effect
modelled here. -/
def startOp (s : EngineState) (mk : DipArbMarketConfig) (now : ℤ) :
    Except String EngineState :=
  if s.isRunning then .error "DipArbService is already running. Call stop() first."
  else if mk.upTokenId = "" ∨ mk.downTokenId = "" then
    .error "Invalid market config: missing token IDs"
  else .ok { s with market := some mk, isRunning := true,
                    stats := createDipArbInitialStats now, priceHistory := [] }

/-- `stop()` (dip-arb-service.ts lines 383-411): idempotent; only flips
`isRunning` and records the running time. -/
def stopOp (s : EngineState) (now : ℤ) : EngineState :=
  if ¬ s.isRunning then s
  else { s with isRunning := false,
                stats := { s.stats with runningTimeMs := now - s.stats.startTime } }

/-- Reason carried by a `rotate` event. -/
inductive RotateReason
  | marketEnded
  | manual
  | errorReason
  deriving DecidableEq, Repr

/-- `DipArbRotateEvent` (dip-arb-types.ts). -/
structure DipArbRotateEvent where
  previousMarket : Option String
  newMarket : String
  reason : RotateReason
  timestamp : ℤ
  deriving DecidableEq, Repr

/-- `rotateToNextMarket` (dip-arb-service.ts lines 1252-1280): the next
market found by `findNextMarket` is the `nextMk` parameter.  The emitted
event's `previousMarket` is read from `this.market` AFTER `start` has
replaced it (source line 1272). -/
def rotateToNextMarketOp (s : EngineState) (nextMk : Option DipArbMarketConfig) (now : ℤ) :
    EngineState × Option DipArbMarketConfig × Option DipArbRotateEvent :=
  if ¬ s.autoRotateEnabled then (s, none, none)
  else
    match nextMk with
    | none => (s, none, none)
    | some mk =>
      let s1 := stopOp s now
      match startOp s1 mk now with
      | .error _ => (s1, none, none)
      | .ok s2 =>
        let ev : DipArbRotateEvent :=
          { previousMarket := s2.market.map (·.conditionId),
            newMarket := mk.conditionId, reason := .manual, timestamp := now }
        (s2, some mk, some ev)

/-! ## Orderbook analytics (`market-service.ts`) -/

/-- A raw orderbook for one token (bids descending, asks ascending). -/
structure Orderbook where
  bids : List PriceLevel
  asks : List PriceLevel
  deriving DecidableEq, Repr

/-- `book.side[0]?.price || d`: JavaScript `||` maps a 0 price to the
default as well. -/
def headPriceOr (levels : List PriceLevel) (d : ℚ) : ℚ :=
  match levels.head? with
  | some l => if l.price = 0 then d else l.price
  | none => d

/-- `book.side[0]?.size || 0`. -/
def headSizeOr (levels : List PriceLevel) : ℚ :=
  match levels.head? with
  | some l => if l.size = 0 then 0 else l.size
  | none => 0

/-- `book.side.reduce((sum, l) => sum + l.price * l.size, 0)`. -/
def levelDepth (levels : List PriceLevel) : ℚ :=
  levels.foldl (fun acc l => acc + l.price * l.size) 0

/-- `EffectivePrices` (market-service.ts). -/
structure EffectivePrices where
  effectiveBuyYes : ℚ
  effectiveBuyNo : ℚ
  effectiveSellYes : ℚ
  effectiveSellNo : ℚ
  deriving DecidableEq, Repr

/-- One side of a `ProcessedOrderbook`. -/
structure SideQuote where
  bid : ℚ
  ask : ℚ
  bidSize : ℚ
  askSize : ℚ
  bidDepth : ℚ
  askDepth : ℚ
  spread : ℚ
  deriving DecidableEq, Repr

/-- The `summary` part of a `ProcessedOrderbook`; `imbalance` models the
source's `imbalanceRatio` with its `+ 0.001` denominator guard. -/
structure OrderbookSummary where
  askSum : ℚ
  bidSum : ℚ
  effectivePrices : EffectivePrices
  effectiveLongCost : ℚ
  effectiveShortRevenue : ℚ
  longArbProfit : ℚ
  shortArbProfit : ℚ
  totalBidDepth : ℚ
  totalAskDepth : ℚ
  imbalance : ℚ
  yesSpread : ℚ
  deriving DecidableEq, Repr

/-- `ProcessedOrderbook` (token-id strings omitted). -/
structure ProcessedOrderbook where
  yes : SideQuote
  no : SideQuote
  summary : OrderbookSummary
  deriving DecidableEq, Repr

/-- `processOrderbooks` (market-service.ts lines 1323-1394). -/
def processOrderbooks (yesBook noBook : Orderbook) : ProcessedOrderbook :=
  let yesBestBid := headPriceOr yesBook.bids 0
  let yesBestAsk := headPriceOr yesBook.asks 1
  let noBestBid := headPriceOr noBook.bids 0
  let noBestAsk := headPriceOr noBook.asks 1
  let yesBidDepth := levelDepth yesBook.bids
  let yesAskDepth := levelDepth yesBook.asks
  let noBidDepth := levelDepth noBook.bids
  let noAskDepth := levelDepth noBook.asks
  let effectivePrices : EffectivePrices :=
    { effectiveBuyYes := min yesBestAsk (1 - noBestBid)
      effectiveBuyNo := min noBestAsk (1 - yesBestBid)
      effectiveSellYes := max yesBestBid (1 - noBestAsk)
      effectiveSellNo := max noBestBid (1 - yesBestAsk) }
  let effectiveLongCost := effectivePrices.effectiveBuyYes + effectivePrices.effectiveBuyNo
  let effectiveShortRevenue :=
    effectivePrices.effectiveSellYes + effectivePrices.effectiveSellNo
  { yes :=
      { bid := yesBestBid, ask := yesBestAsk, bidSize := headSizeOr yesBook.bids,
        askSize := headSizeOr yesBook.asks, bidDepth := yesBidDepth,
        askDepth := yesAskDepth, spread := yesBestAsk - yesBestBid }
    no :=
      { bid := noBestBid, ask := noBestAsk, bidSize := headSizeOr noBook.bids,
        askSize := headSizeOr noBook.asks, bidDepth := noBidDepth,
        askDepth := noAskDepth, spread := noBestAsk - noBestBid }
    summary :=
      { askSum := yesBestAsk + noBestAsk
        bidSum := yesBestBid + noBestBid
        effectivePrices := effectivePrices
        effectiveLongCost := effectiveLongCost
        effectiveShortRevenue := effectiveShortRevenue
        longArbProfit := 1 - effectiveLongCost
        shortArbProfit := effectiveShortRevenue - 1
        totalBidDepth := yesBidDepth + noBidDepth
        totalAskDepth := yesAskDepth + noAskDepth
        imbalance := (yesBidDepth + noBidDepth) / (yesAskDepth + noAskDepth + 1/1000)
        yesSpread := yesBestAsk - yesBestBid } }

/-- Direction of an arbitrage opportunity. -/
inductive ArbType
  | long
  | short
  deriving DecidableEq, Repr

/-- `ArbitrageOpportunity` (action string omitted; it is a formatted
rendering of the effective prices). -/
structure ArbOpportunity where
  type : ArbType
  profit : ℚ
  expectedProfit : ℚ
  deriving DecidableEq, Repr

/-- Default `threshold` of `detectArbitrage` (0.005). -/
def defaultArbThreshold : ℚ := 5/1000

/-- `detectArbitrage` (market-service.ts lines 998-1023), applied to an
already processed orderbook. -/
def detectArbitrage (ob : ProcessedOrderbook) (threshold : ℚ) : Option ArbOpportunity :=
  if threshold < ob.summary.longArbProfit then
    some { type := .long, profit := ob.summary.longArbProfit,
           expectedProfit := ob.summary.longArbProfit }
  else if threshold < ob.summary.shortArbProfit then
    some { type := .short, profit := ob.summary.shortArbProfit,
           expectedProfit := ob.summary.shortArbProfit }
  else none

/-! ## Pending redemptions (`processPendingRedemptions`) -/

/-- `DipArbPendingRedemption` (dip-arb-types.ts); the market reference is
reduced to the fields the ticker reads. -/
structure PendingRedemption where
  slug : String
  conditionId : String
  marketEndTime : ℤ
  addedAt : ℤ
  retryCount : ℕ
  lastRetryAt : Option ℤ
  deriving DecidableEq, Repr

/-- `addPendingRedemption` (dip-arb-service.ts lines 1332-1342). -/
def addPendingRedemption (mkSlug mkConditionId : String) (marketEndTime now : ℤ) :
    PendingRedemption where
  slug := mkSlug
  conditionId := mkConditionId
  marketEndTime := marketEndTime
  addedAt := now
  retryCount := 0
  lastRetryAt := none

/-- Environment answer for one redemption attempt: the market resolution
query result, or a thrown RPC error. -/
inductive ResolutionResp
  | resolved (redeemOk : Bool)
  | unresolved
  | rpcError
  deriving DecidableEq, Repr

/-- What happened to one pending item during one ticker pass. -/
inductive RedeemOutcome
  | stillQueued
  | settledRemoved (ok : Bool)
  | abandonedRemoved
  deriving DecidableEq, Repr

/-- The per-item body of `processPendingRedemptions`
(dip-arb-service.ts lines 1348-1444): skip inside the mandatory wait,
then count the attempt; without a CTF client the item is left queued;
a resolved market is redeemed and removed; an unresolved market or an
RPC error abandons the item once `retryCount > 20`. -/
def processPendingOne (hasCtf : Bool) (waitMs now : ℤ) (p : PendingRedemption)
    (resp : ResolutionResp) : Option PendingRedemption × RedeemOutcome :=
  if now - p.marketEndTime < waitMs then (some p, .stillQueued)
  else
    let p1 := { p with retryCount := p.retryCount + 1, lastRetryAt := some now }
    if ¬ hasCtf then (some p1, .stillQueued)
    else
      match resp with
      | .resolved ok => (none, .settledRemoved ok)
      | .unresolved =>
        if 20 < p1.retryCount then (none, .abandonedRemoved) else (some p1, .stillQueued)
      | .rpcError =>
        if 20 < p1.retryCount then (none, .abandonedRemoved) else (some p1, .stillQueued)

/-- Iterated redemption ticks on a single queued item, with tick `k`
firing at time `times k` and observing `resps k`. -/
def runRedeemTicks (waitMs : ℤ) (times : ℕ → ℤ) (resps : ℕ → ResolutionResp)
    (p0 : PendingRedemption) : ℕ → Option PendingRedemption
  | 0 => some p0
  | k + 1 =>
    match runRedeemTicks waitMs times resps p0 k with
    | none => none
    | some p => (processPendingOne true waitMs (times k) p (resps k)).1

/-! ## Concrete fixtures -/

/-- A 15-minute market fixture. -/
def mkFix : DipArbMarketConfig where
  name := "BTC Up or Down"
  slug := "btc-updown-15m-1"
  conditionId := "0xcond1"
  upTokenId := "TOKUP"
  downTokenId := "TOKDOWN"
  durationMinutes := 15
  endTime := 10000000

/-- The default configuration with `autoExecute` turned on. -/
def cfgAuto : DipArbConfig := { DEFAULT_DIP_ARB_CONFIG with autoExecute := true }

/-- A freshly started engine on `mkFix` (state right after `start`). -/
def engine0 (cfg : DipArbConfig) : EngineState where
  market := some mkFix
  currentRound := none
  isRunning := true
  hasTrading := true
  isExecuting := false
  lastExecutionTime := 0
  config := cfg
  stats := createDipArbInitialStats 0
  upAsks := []
  downAsks := []
  priceHistory := []
  currentUnderlyingPrice := 0
  leg1SignalEmitted := false
  autoRotateEnabled := false

/-- Auto-execute trace: both books seed at 0.50, UP dips to 0.40 at t=4s
(Leg1 fills), DOWN refreshes at 0.50 at t=8s (Leg2 fills). -/
def traceB1 : EngineState :=
  (handleOrderbookUpdate (engine0 cfgAuto) ⟨"TOKUP", [⟨1/2, 10⟩]⟩ 0 true).1

def traceB2 : EngineState :=
  (handleOrderbookUpdate traceB1 ⟨"TOKDOWN", [⟨1/2, 10⟩]⟩ 0 true).1

def traceB3 : EngineState :=
  (handleOrderbookUpdate traceB2 ⟨"TOKUP", [⟨2/5, 10⟩]⟩ 4000 true).1

def traceB4 : EngineState :=
  (handleOrderbookUpdate traceB3 ⟨"TOKDOWN", [⟨1/2, 10⟩]⟩ 8000 true).1

/-- Monitoring-only trace (default config, no auto-execution): same dip,
observed twice in a burst at t=4s and t=4.1s. -/
def traceM1 : EngineState :=
  (handleOrderbookUpdate (engine0 DEFAULT_DIP_ARB_CONFIG) ⟨"TOKUP", [⟨1/2, 10⟩]⟩ 0 true).1

def traceM2 : EngineState :=
  (handleOrderbookUpdate traceM1 ⟨"TOKDOWN", [⟨1/2, 10⟩]⟩ 0 true).1

def stepBurst1 : EngineState × List EngineEvent :=
  handleOrderbookUpdate traceM2 ⟨"TOKUP", [⟨2/5, 10⟩]⟩ 4000 true

def stepBurst2 : EngineState × List EngineEvent :=
  handleOrderbookUpdate stepBurst1.1 ⟨"TOKUP", [⟨2/5, 10⟩]⟩ 4100 true

/-- Recognizer for emitted Leg1 signal events. -/
def isLeg1SignalEvent : EngineEvent → Bool
  | .signalEvt (.leg1 _) => true
  | _ => false

/-- Recognizer for `newRound` events. -/
def isNewRoundEvent : EngineEvent → Bool
  | .newRound .. => true
  | _ => false

/-- Forward order on phases: `waiting < leg1_filled < {completed, expired}`. -/
def phaseRank : DipArbPhase → ℕ
  | .waiting => 0
  | .leg1_filled => 1
  | .completed => 2
  | .expired => 2

/-- Leg1 fill record: UP bought at 0.40. -/
def cex1Leg1 : DipArbLegInfo where
  side := .UP
  price := 2/5
  shares := 20
  timestamp := 0
  tokenId := "TOKUP"

/-- Round in `leg1_filled` phase holding `cex1Leg1`. -/
def cex1Round : DipArbRoundState where
  roundId := "r1"
  startTime := 0
  endTime := 900000
  priceToBeat := 0
  openUp := 1/2
  openDown := 1/2
  phase := .leg1_filled
  leg1 := some cex1Leg1

/-- State in `leg1_filled` with the hedge (DOWN) best ask at 0.54:
`leg1.price + ask = 0.94 ≤ sumTarget = 0.95`, but the code's
slippage-adjusted cost `0.40 + 0.54·1.02 = 0.9508 > 0.95`. -/
def cex1State : EngineState :=
  { engine0 DEFAULT_DIP_ARB_CONFIG with
    currentRound := some cex1Round
    downAsks := [⟨54/100, 10⟩] }

/-- Same situation with the hedge ask at 0.50, where the Leg2 gate passes. -/
def wit1State : EngineState :=
  { engine0 DEFAULT_DIP_ARB_CONFIG with
    currentRound := some cex1Round
    downAsks := [⟨1/2, 10⟩] }

/-- Waiting round with open prices 0.50 / 0.70. -/
def cex4Round : DipArbRoundState where
  roundId := "r4"
  startTime := 0
  endTime := 900000
  priceToBeat := 0
  openUp := 1/2
  openDown := 7/10
  phase := .waiting

/-- UP dipped from 0.50 (ring reference) to 0.40 while DOWN asks 0.70:
a dip signal fires with `estimatedTotalCost = 0.408 + 0.70 = 1.108 ≥ 1`. -/
def cex4State : EngineState :=
  { engine0 DEFAULT_DIP_ARB_CONFIG with
    currentRound := some cex4Round
    upAsks := [⟨2/5, 10⟩]
    downAsks := [⟨7/10, 10⟩]
    priceHistory := [⟨0, 1/2, 7/10⟩] }

/-- The signal `detectLeg1Signal cex4State 4000` produces. -/
def cex4Sig : DipArbLeg1Signal where
  roundId := "r4"
  dipSide := .UP
  currentPrice := 2/5
  openPrice := 1/2
  dropPercent := 1/5
  targetPrice := 51/125
  shares := 20
  tokenId := "TOKUP"
  oppositeAsk := 7/10
  estimatedTotalCost := 277/250
  estimatedProfitRate := 0
  source := .dip

/-- Waiting round with both opens at 0.50. -/
def wit4Round : DipArbRoundState where
  roundId := "r4w"
  startTime := 0
  endTime := 900000
  priceToBeat := 0
  openUp := 1/2
  openDown := 1/2
  phase := .waiting

/-- UP dipped from 0.50 to 0.40 with DOWN at 0.50: a profitable dip. -/
def wit4State : EngineState :=
  { engine0 DEFAULT_DIP_ARB_CONFIG with
    currentRound := some wit4Round
    upAsks := [⟨2/5, 10⟩]
    downAsks := [⟨1/2, 10⟩]
    priceHistory := [⟨0, 1/2, 1/2⟩] }

/-- A completed round (both legs filled). -/
def cex5Round : DipArbRoundState where
  roundId := "r5"
  startTime := 0
  endTime := 900000
  priceToBeat := 0
  openUp := 1/2
  openDown := 1/2
  phase := .completed
  leg1 := some cex1Leg1
  leg2 := some { side := .DOWN, price := 1/2, shares := 20, timestamp := 10, tokenId := "TOKDOWN" }
  totalCost := some (9/10)
  profit := some (1/10)

/-- Engine holding the completed round `cex5Round`. -/
def cex5State : EngineState :=
  { engine0 DEFAULT_DIP_ARB_CONFIG with currentRound := some cex5Round }

/-- A Leg1 signal fed manually to `executeLeg1` on the completed round. -/
def cex5Sig : DipArbLeg1Signal :=
  { cex4Sig with roundId := "r5" }

/-- Waiting round whose `priceToBeat` is known (100). -/
def cex6Round : DipArbRoundState where
  roundId := "r6"
  startTime := 0
  endTime := 900000
  priceToBeat := 100
  openUp := 1/2
  openDown := 1/2
  phase := .waiting

/-- History exists but holds no entry at or before `now − slidingWindowMs`
(single entry at t=500, now=1000, window 3000), while the oracle moved
+10%: the mispricing pattern fires without any ring reference. -/
def cex6State : EngineState :=
  { engine0 DEFAULT_DIP_ARB_CONFIG with
    currentRound := some cex6Round
    upAsks := [⟨1/2, 10⟩]
    downAsks := [⟨1/2, 10⟩]
    priceHistory := [⟨500, 1/2, 1/2⟩]
    currentUnderlyingPrice := 110 }

/-- The signal `detectLeg1Signal cex6State 1000` produces. -/
def cex6Sig : DipArbLeg1Signal where
  roundId := "r6"
  dipSide := .UP
  currentPrice := 1/2
  openPrice := 1/2
  dropPercent := 9/20
  targetPrice := 51/100
  shares := 20
  tokenId := "TOKUP"
  oppositeAsk := 1/2
  estimatedTotalCost := 101/100
  estimatedProfitRate := 0
  source := .mispricing

/-- A bare waiting round used by the monotone-step witness. -/
def wit5Round : DipArbRoundState where
  roundId := "r5w"
  startTime := 0
  endTime := 900000
  priceToBeat := 0
  openUp := 1/2
  openDown := 1/2
  phase := .waiting

/-- Engine holding `wit5Round` with empty books and history: the next
orderbook update keeps the same round and emits nothing. -/
def wit5State : EngineState :=
  { engine0 DEFAULT_DIP_ARB_CONFIG with currentRound := some wit5Round }

/-- A pending redemption enqueued at market end (t = 700000). -/
def pend0 : PendingRedemption :=
  addPendingRedemption "btc-updown-15m-1" "0xcond1" 700000 700000

/-- Spec scenario 4 orderbooks: YES bid 0.40 / ask 0.45. -/
def wit8Yes : Orderbook where
  bids := [⟨40/100, 10⟩]
  asks := [⟨45/100, 10⟩]

/-- Spec scenario 4 orderbooks: NO bid 0.45 / ask 0.50. -/
def wit8No : Orderbook where
  bids := [⟨45/100, 10⟩]
  asks := [⟨50/100, 10⟩]

/-- An engine that is not running (fresh or stopped). -/
def idleEngine : EngineState :=
  { engine0 DEFAULT_DIP_ARB_CONFIG with isRunning := false, market := none }

/-- `idleEngine` after a successful `start(mkFix)` at t = 5000. -/
def startedIdle : EngineState :=
  { idleEngine with
    market := some mkFix
    isRunning := true
    stats := createDipArbInitialStats 5000
    priceHistory := [] }

/-- An idle engine with auto-rotation enabled. -/
def rotIdle : EngineState :=
  { engine0 DEFAULT_DIP_ARB_CONFIG with isRunning := false, autoRotateEnabled := true }

/-- `rotIdle` after `rotateToNextMarket` swapped to `mkFix` at t = 123. -/
def rotS2 : EngineState :=
  { rotIdle with
    market := some mkFix
    isRunning := true
    stats := createDipArbInitialStats 123
    priceHistory := [] }

/-- The rotate event emitted by that manual rotation. -/
def rotEv : DipArbRotateEvent where
  previousMarket := some "0xcond1"
  newMarket := "0xcond1"
  reason := .manual
  timestamp := 123

/-! ## Shared lemmas -/

/-- A successful `startOp` returns the input state with the market
installed, statistics reset and the price history cleared. -/
theorem startOp_ok_spec {s : EngineState} {mk : DipArbMarketConfig} {now : ℤ}
    {s' : EngineState} (h : startOp s mk now = .ok s') :
    s' = { s with
           market := some mk
           isRunning := true
           stats := createDipArbInitialStats now
           priceHistory := [] } := by
  unfold startOp at h
  split at h
  · exact absurd h (by simp)
  · split at h
    · exact absurd h (by simp)
    · cases h
      rfl

/-- `startOp` installs exactly the requested market. -/
theorem startOp_ok_market {s : EngineState} {mk : DipArbMarketConfig} {now : ℤ}
    {s' : EngineState} (h : startOp s mk now = .ok s') : s'.market = some mk := by
  rw [startOp_ok_spec h]

/-! ## C1: Leg2 admission gate and signal contents -/

/-- C1 counterexample: with `leg1.price = 0.40`, hedge ask `0.54 < 1` and
default config, the claim's gate `leg1.price + leg2AskNow ≤ sumTarget`
holds (0.94 ≤ 0.95), yet no Leg2 signal is emitted, because the code
compares `leg1.price + leg2AskNow·(1+maxSlippage) = 0.9508` instead. -/
theorem claim1_counterexample :
    cex1State.currentRound.bind (·.leg1) = some cex1Leg1 ∧
    sideBestAsk cex1State (oppositeSide cex1Leg1.side) < 1 ∧
    cex1Leg1.price + sideBestAsk cex1State (oppositeSide cex1Leg1.side)
      ≤ cex1State.config.sumTarget ∧
    detectLeg2Signal cex1State = none := by
  with_unfolding_all decide

/-- C1 amended: in `leg1_filled`, a Leg2 signal is emitted iff the hedge
ask is < 1 and `leg1.price + ask·(1+maxSlippage) ≤ sumTarget`; the signal
carries `totalCost = leg1.price + ask·(1+maxSlippage)`,
`targetPrice = ask·(1+maxSlippage)` and `expectedProfitRate =
calculateDipArbProfitRate totalCost`, which equals `(1−c)/c` whenever
`0 < c < 1`. -/
theorem claim1_amended (s : EngineState) (mk : DipArbMarketConfig)
    (round : DipArbRoundState) (leg1r : DipArbLegInfo)
    (hm : s.market = some mk) (hr : s.currentRound = some round)
    (hl : round.leg1 = some leg1r) :
    (sideBestAsk s (oppositeSide leg1r.side) < 1 ∧
      leg1r.price + sideBestAsk s (oppositeSide leg1r.side) * (1 + s.config.maxSlippage)
        ≤ s.config.sumTarget →
      detectLeg2Signal s = some
        { roundId := round.roundId
          hedgeSide := oppositeSide leg1r.side
          leg1 := leg1r
          currentPrice := sideBestAsk s (oppositeSide leg1r.side)
          targetPrice := sideBestAsk s (oppositeSide leg1r.side) * (1 + s.config.maxSlippage)
          totalCost := leg1r.price +
            sideBestAsk s (oppositeSide leg1r.side) * (1 + s.config.maxSlippage)
          expectedProfitRate := calculateDipArbProfitRate (leg1r.price +
            sideBestAsk s (oppositeSide leg1r.side) * (1 + s.config.maxSlippage))
          shares := s.config.shares
          tokenId := sideTokenId mk (oppositeSide leg1r.side) }) ∧
    (1 ≤ sideBestAsk s (oppositeSide leg1r.side) ∨
      s.config.sumTarget <
        leg1r.price + sideBestAsk s (oppositeSide leg1r.side) * (1 + s.config.maxSlippage) →
      detectLeg2Signal s = none) ∧
    (∀ c : ℚ, 0 < c → c < 1 → calculateDipArbProfitRate c = (1 - c) / c) := by
  refine ⟨?_, ?_, ?_⟩
  · rintro ⟨h1, h2⟩
    simp only [detectLeg2Signal, hr, hm, hl]
    rw [if_neg (not_le.mpr h1), if_neg (not_lt.mpr h2)]
  · rintro (h | h)
    · simp only [detectLeg2Signal, hr, hm, hl]
      rw [if_pos h]
    · simp only [detectLeg2Signal, hr, hm, hl]
      by_cases ha : 1 ≤ sideBestAsk s (oppositeSide leg1r.side)
      · rw [if_pos ha]
      · rw [if_neg ha, if_pos h]
  · intro c h1 h2
    unfold calculateDipArbProfitRate
    rw [if_neg (not_or.mpr ⟨not_le.mpr h2, not_le.mpr h1⟩)]

/-- C1 witness: at hedge ask 0.50 the amended gate passes and a Leg2
signal is produced. -/
theorem claim1_witness : (detectLeg2Signal wit1State).isSome = true := by
  have h := (claim1_amended wit1State mkFix cex1Round cex1Leg1 rfl rfl rfl).1
    (by with_unfolding_all decide)
  rw [h]
  rfl

/-! ## C2: statistics counter ordering -/

/-- C2: after one round completes through a successful Leg2 execution,
`roundsSuccessful = 1` while `roundsCompleted = 0`: `executeLeg2`
increments `roundsSuccessful` but never `roundsCompleted` (only the
expiry path does), so `roundsSuccessful ≤ roundsCompleted` fails. -/
theorem claim2_code_bug :
    traceB4.stats.roundsSuccessful = 1 ∧
    traceB4.stats.roundsCompleted = 0 ∧
    traceB4.stats.roundsMonitored = 1 ∧
    traceB4.currentRound.map (·.phase) = some DipArbPhase.completed ∧
    ¬ (traceB4.stats.roundsSuccessful ≤ traceB4.stats.roundsCompleted) := by
  with_unfolding_all decide

/-! ## C3: at-most-once Leg1 emission per round -/

/-- C3 counterexample: two consecutive orderbook updates during the same
round's waiting phase each emit a Leg1 signal (no `newRound` in between,
same round id): the `leg1SignalEmitted` latch is declared and reset but
never set or consulted, so it prevents nothing. -/
theorem claim3_counterexample :
    (stepBurst1.2.filter isLeg1SignalEvent).length = 1 ∧
    (stepBurst2.2.filter isLeg1SignalEvent).length = 1 ∧
    (stepBurst2.2.filter isNewRoundEvent).length = 0 ∧
    stepBurst1.1.currentRound.map (·.roundId) = stepBurst2.1.currentRound.map (·.roundId) ∧
    stepBurst2.1.currentRound.map (·.phase) = some DipArbPhase.waiting ∧
    stepBurst2.1.leg1SignalEmitted = false := by
  with_unfolding_all decide

/-! ## C5: phase monotonicity -/

/-- C5 counterexample: the public `executeLeg1` endpoint performs no phase
check, so invoking it on a round already in the `completed` phase moves
the phase backwards to `leg1_filled`. -/
theorem claim5_counterexample :
    cex5State.currentRound.map (·.phase) = some DipArbPhase.completed ∧
    (executeLeg1Op cex5State cex5Sig true 100).1.currentRound.map (·.phase)
      = some DipArbPhase.leg1_filled ∧
    phaseRank DipArbPhase.leg1_filled < phaseRank DipArbPhase.completed := by
  with_unfolding_all decide

/-! ## C4: dip-signal contents -/

/-- C4 counterexample: the dip conditions of the claim hold (reference
0.50, current 0.40, 20% ≥ 15% threshold, 0 < 0.40 < 1) and the dip
signal is emitted, but with `estimatedTotalCost = 1.108 ≥ 1` the code
clamps `estimatedProfitRate` to 0 instead of the claimed
`(1 − 1.108)/1.108 < 0`. -/
theorem claim4_counterexample :
    detectSignal cex4State 4000 = some (.leg1 cex4Sig) ∧
    cex4Sig.estimatedProfitRate = 0 ∧
    (1 - cex4Sig.estimatedTotalCost) / cex4Sig.estimatedTotalCost ≠
      cex4Sig.estimatedProfitRate := by
  with_unfolding_all decide

/-! ## C6: detector with missing ring reference -/

/-- C6 counterexample: no ring entry lies at or before
`now − slidingWindowMs`, yet a Leg1 signal (source `mispricing`) is
still produced on that update — the mispricing pattern does not consult
the price history. -/
theorem claim6_counterexample :
    histRefEntry cex6State.priceHistory (1000 - cex6State.config.slidingWindowMs) = none ∧
    cex6State.priceHistory ≠ [] ∧
    detectSignal cex6State 1000 = some (.leg1 cex6Sig) ∧
    cex6Sig.source = SignalSource.mispricing := by
  with_unfolding_all decide

/-! ## C8: effective prices and arbitrage detection -/

/-- C8: the processed summary's effective prices satisfy the mirror
formulas, the long/short profits are derived from them, and detection
returns long iff `longArbProfit > t`, otherwise short iff
`shortArbProfit > t`, otherwise none. -/
theorem claim8_effective_prices (yesBook noBook : Orderbook) (t : ℚ)
    (ob : ProcessedOrderbook) (hob : ob = processOrderbooks yesBook noBook) :
    ob.summary.effectivePrices.effectiveBuyYes = min ob.yes.ask (1 - ob.no.bid) ∧
    ob.summary.effectivePrices.effectiveBuyNo = min ob.no.ask (1 - ob.yes.bid) ∧
    ob.summary.effectivePrices.effectiveSellYes = max ob.yes.bid (1 - ob.no.ask) ∧
    ob.summary.effectivePrices.effectiveSellNo = max ob.no.bid (1 - ob.yes.ask) ∧
    ob.summary.longArbProfit = 1 -
      (ob.summary.effectivePrices.effectiveBuyYes + ob.summary.effectivePrices.effectiveBuyNo) ∧
    ob.summary.shortArbProfit =
      (ob.summary.effectivePrices.effectiveSellYes + ob.summary.effectivePrices.effectiveSellNo)
        - 1 ∧
    (t < ob.summary.longArbProfit →
      detectArbitrage ob t = some { type := .long, profit := ob.summary.longArbProfit,
                                    expectedProfit := ob.summary.longArbProfit }) ∧
    (¬ t < ob.summary.longArbProfit → t < ob.summary.shortArbProfit →
      detectArbitrage ob t = some { type := .short, profit := ob.summary.shortArbProfit,
                                    expectedProfit := ob.summary.shortArbProfit }) ∧
    (¬ t < ob.summary.longArbProfit → ¬ t < ob.summary.shortArbProfit →
      detectArbitrage ob t = none) := by
  subst hob
  refine ⟨rfl, rfl, rfl, rfl, rfl, rfl, ?_, ?_, ?_⟩
  · intro h
    unfold detectArbitrage
    rw [if_pos h]
  · intro h1 h2
    unfold detectArbitrage
    rw [if_neg h1, if_pos h2]
  · intro h1 h2
    unfold detectArbitrage
    rw [if_neg h1, if_neg h2]

/-- C8 witness: spec scenario 4 (yes 0.40/0.45, no 0.45/0.50) yields a
long opportunity at the default threshold. -/
theorem claim8_witness :
    detectArbitrage (processOrderbooks wit8Yes wit8No) defaultArbThreshold
      = some { type := .long,
               profit := (processOrderbooks wit8Yes wit8No).summary.longArbProfit,
               expectedProfit := (processOrderbooks wit8Yes wit8No).summary.longArbProfit } :=
  (claim8_effective_prices wit8Yes wit8No defaultArbThreshold _ rfl).2.2.2.2.2.2.1
    (by with_unfolding_all decide)

/-! ## C9: start resets statistics and history -/

/-- C9: every successful `start` (including the `stop`-then-`start`
sequence performed by rotation) installs `createDipArbInitialStats now`
(all counters and cumulative profit zero, `startTime = now`) and clears
the price history, discarding everything accumulated on the previous
market. -/
theorem claim9_start_resets_stats (s : EngineState) (mk : DipArbMarketConfig)
    (nowStop now : ℤ) (s1 s2 : EngineState)
    (h1 : startOp s mk now = .ok s1)
    (h2 : startOp (stopOp s nowStop) mk now = .ok s2) :
    s1.stats = createDipArbInitialStats now ∧ s1.priceHistory = [] ∧
    s2.stats = createDipArbInitialStats now ∧ s2.priceHistory = [] ∧
    s2.stats.roundsMonitored = 0 ∧ s2.stats.roundsSuccessful = 0 ∧
    s2.stats.totalProfit = 0 ∧ s2.stats.totalSpent = 0 ∧
    s2.stats.startTime = now := by
  have e1 := startOp_ok_spec h1
  have e2 := startOp_ok_spec h2
  subst e1
  subst e2
  exact ⟨rfl, rfl, rfl, rfl, rfl, rfl, rfl, rfl, rfl⟩

/-- C9 witness: starting the idle engine at t = 5000. -/
theorem claim9_witness :
    startedIdle.stats = createDipArbInitialStats 5000 ∧ startedIdle.priceHistory = [] := by
  have h := claim9_start_resets_stats idleEngine mkFix 1000 5000 startedIdle startedIdle
    (by with_unfolding_all rfl) (by with_unfolding_all rfl)
  exact ⟨h.1, h.2.1⟩

/-! ## C10: manual rotation event fields -/

/-- C10: when the manual `rotateToNextMarket` succeeds, the emitted rotate
event's `previousMarket` is read from the engine's market reference after
the swap, so it equals the new market's `conditionId` and hence the
event's own `newMarket` field. -/
theorem claim10_rotate_event (s : EngineState) (mk : DipArbMarketConfig) (now : ℤ)
    (s' : EngineState) (mkOut : Option DipArbMarketConfig) (ev : DipArbRotateEvent)
    (h : rotateToNextMarketOp s (some mk) now = (s', mkOut, some ev)) :
    ev.previousMarket = some mk.conditionId ∧ ev.newMarket = mk.conditionId ∧
    ev.previousMarket = some ev.newMarket := by
  unfold rotateToNextMarketOp at h
  split at h
  · exact absurd h (by simp)
  · split at h
    · exact absurd h (by simp)
    · rename_i mk1 heq
      injection heq with heq
      subst heq
      dsimp only at h
      split at h
      · exact absurd h (by simp)
      · rename_i s2 hst
        have hmkt := startOp_ok_market hst
        cases h
        refine ⟨?_, rfl, ?_⟩ <;> simp [hmkt]

/-- C10 witness: rotating the idle auto-rotate-enabled engine to `mkFix`.
The event records `previousMarket = some "0xcond1" = some newMarket`. -/
theorem claim10_witness : rotEv.previousMarket = some rotEv.newMarket :=
  (claim10_rotate_event rotIdle mkFix 123 rotS2 (some mkFix) rotEv
    (by with_unfolding_all rfl)).2.2

/-! ## C7: eventual removal of pending redemptions -/

/-- A resolved market removes the item (redeem invoked, settled). -/
theorem processPendingOne_resolved {waitMs now : ℤ} {p : PendingRedemption} {ok : Bool}
    (hgate : ¬ now - p.marketEndTime < waitMs) :
    processPendingOne true waitMs now p (.resolved ok) = (none, .settledRemoved ok) := by
  unfold processPendingOne
  rw [if_neg hgate]
  simp

/-- An unresolved market counts the attempt and abandons past 20. -/
theorem processPendingOne_unresolved {waitMs now : ℤ} {p : PendingRedemption}
    (hgate : ¬ now - p.marketEndTime < waitMs) :
    processPendingOne true waitMs now p .unresolved =
      if 20 < p.retryCount + 1 then (none, .abandonedRemoved)
      else (some { p with retryCount := p.retryCount + 1, lastRetryAt := some now },
            .stillQueued) := by
  unfold processPendingOne
  rw [if_neg hgate]
  simp

/-- An RPC error counts the attempt and abandons past 20. -/
theorem processPendingOne_rpcError {waitMs now : ℤ} {p : PendingRedemption}
    (hgate : ¬ now - p.marketEndTime < waitMs) :
    processPendingOne true waitMs now p .rpcError =
      if 20 < p.retryCount + 1 then (none, .abandonedRemoved)
      else (some { p with retryCount := p.retryCount + 1, lastRetryAt := some now },
            .stillQueued) := by
  unfold processPendingOne
  rw [if_neg hgate]
  simp

/-- One-tick invariant: while the item survives, `retryCount` counts the
ticks, and it never exceeds 20 in a surviving item. -/
theorem runRedeemTicks_state (waitMs : ℤ) (times : ℕ → ℤ) (resps : ℕ → ResolutionResp)
    (p0 : PendingRedemption) (h0 : p0.retryCount = 0)
    (hT : ∀ k, p0.marketEndTime + waitMs ≤ times k) :
    ∀ k : ℕ, runRedeemTicks waitMs times resps p0 k = none ∨
      ∃ p, runRedeemTicks waitMs times resps p0 k = some p ∧
        p.retryCount = k ∧ p.marketEndTime = p0.marketEndTime ∧ k ≤ 20 := by
  intro k
  induction k with
  | zero => exact Or.inr ⟨p0, rfl, h0, rfl, by omega⟩
  | succ k ih =>
    rcases ih with hnone | ⟨p, hp, hrc, hend, hk⟩
    · left
      simp only [runRedeemTicks, hnone]
    · have hgate : ¬ (times k - p.marketEndTime < waitMs) := by
        have := hT k
        rw [hend]
        omega
      have hstep : runRedeemTicks waitMs times resps p0 (k + 1)
          = (processPendingOne true waitMs (times k) p (resps k)).1 := by
        simp only [runRedeemTicks, hp]
      rw [hstep]
      cases resps k with
      | resolved ok =>
        left
        rw [processPendingOne_resolved hgate]
      | unresolved =>
        rw [processPendingOne_unresolved hgate]
        by_cases h20 : 20 < p.retryCount + 1
        · left
          rw [if_pos h20]
        · right
          rw [if_neg h20]
          exact ⟨_, rfl, by simp [hrc], by simp [hend], by omega⟩
      | rpcError =>
        rw [processPendingOne_rpcError hgate]
        by_cases h20 : 20 < p.retryCount + 1
        · left
          rw [if_pos h20]
        · right
          rw [if_neg h20]
          exact ⟨_, rfl, by simp [hrc], by simp [hend], by omega⟩

/-- C7: once past the mandatory wait and with a CTF client available, a
queued redemption is removed within 21 ticks no matter what the
resolution endpoint answers; one tick removes it either because the
market resolved (redeem invoked, settled) or by abandonment, and
abandonment happens exactly when the attempt count exceeds 20. -/
theorem claim7_eventual_removal (waitMs : ℤ) (times : ℕ → ℤ)
    (resps : ℕ → ResolutionResp) (p0 : PendingRedemption)
    (h0 : p0.retryCount = 0)
    (hT : ∀ k, p0.marketEndTime + waitMs ≤ times k) :
    runRedeemTicks waitMs times resps p0 21 = none ∧
    (∀ (now : ℤ) (p : PendingRedemption) (resp : ResolutionResp) (o : RedeemOutcome),
      ¬ now - p.marketEndTime < waitMs →
      processPendingOne true waitMs now p resp = (none, o) →
      (∃ ok, resp = .resolved ok ∧ o = .settledRemoved ok) ∨
      (o = .abandonedRemoved ∧ 20 < p.retryCount + 1)) := by
  constructor
  · rcases runRedeemTicks_state waitMs times resps p0 h0 hT 21 with h | ⟨p, _, _, _, hk⟩
    · exact h
    · omega
  · intro now p resp o hgate hstep
    cases resp with
    | resolved ok =>
      rw [processPendingOne_resolved hgate] at hstep
      injection hstep with h1 h2
      exact Or.inl ⟨ok, rfl, h2.symm⟩
    | unresolved =>
      rw [processPendingOne_unresolved hgate] at hstep
      by_cases h20 : 20 < p.retryCount + 1
      · rw [if_pos h20] at hstep
        injection hstep with h1 h2
        exact Or.inr ⟨h2.symm, h20⟩
      · rw [if_neg h20] at hstep
        injection hstep with h1 h2
        exact absurd h1 (by simp)
    | rpcError =>
      rw [processPendingOne_rpcError hgate] at hstep
      by_cases h20 : 20 < p.retryCount + 1
      · rw [if_pos h20] at hstep
        injection hstep with h1 h2
        exact Or.inr ⟨h2.symm, h20⟩
      · rw [if_neg h20] at hstep
        injection hstep with h1 h2
        exact absurd h1 (by simp)

/-- C7 witness: the item enqueued at t = 700000 with a 5-minute wait and a
permanently unresolved market is gone after 21 post-wait ticks. -/
theorem claim7_witness :
    runRedeemTicks 300000 (fun _ => 1000000) (fun _ => .unresolved) pend0 21 = none :=
  (claim7_eventual_removal 300000 (fun _ => 1000000) (fun _ => .unresolved) pend0 rfl
    (fun _ => by simp only [pend0, addPendingRedemption]; omega)).1

/-! ## C3 amended: Leg1 signals only from the waiting phase -/

/-- `detectSignal` yields a Leg1 signal only when the round is waiting. -/
theorem detectSignal_leg1_phase {s : EngineState} {now : ℤ} {l : DipArbLeg1Signal}
    (h : detectSignal s now = some (.leg1 l)) :
    s.currentRound.map (·.phase) = some DipArbPhase.waiting := by
  unfold detectSignal at h
  cases hr : s.currentRound with
  | none =>
    rw [hr] at h
    exact absurd h (by simp)
  | some round =>
    cases hm : s.market with
    | none =>
      simp only [hr, hm] at h
      exact absurd h (by simp)
    | some mk =>
      simp only [hr, hm] at h
      cases hph : round.phase <;> simp only [hph] at h
      · simp [hph]
      · exfalso
        cases hd : detectLeg2Signal s <;> rw [hd] at h <;> simp at h
      · exact absurd h (by simp)
      · exact absurd h (by simp)

/-- C3 amended: within one round, Leg1 signals can only be produced while
the round's phase is `waiting` (the phase check); once the phase leaves
`waiting` no further Leg1 signal is emitted for that round.  The
`leg1SignalEmitted` latch contributes nothing: it is declared and reset
but never set or read, so repeated waiting-phase updates can each emit a
Leg1 signal (see the counterexample). -/
theorem claim3_amended (s : EngineState) (now : ℤ) (round : DipArbRoundState)
    (hr : s.currentRound = some round) (l : DipArbLeg1Signal)
    (h : detectSignal s now = some (.leg1 l)) :
    round.phase = DipArbPhase.waiting := by
  have hp := detectSignal_leg1_phase h
  rw [hr] at hp
  simpa using hp

/-- C3 witness: the dip state `cex4State` emits a Leg1 signal, and its
round is indeed in the waiting phase. -/
theorem claim3_witness : cex4Round.phase = DipArbPhase.waiting :=
  claim3_amended cex4State 4000 cex4Round rfl cex4Sig (by with_unfolding_all decide)

/-! ## C6 amended: missing ring reference suppresses dip and surge only -/

/-- If every `some` value of both alternatives satisfies `p`, so does any
`some` value of their `orElse`. -/
theorem orElse_source {α : Type} {p : α → Prop} {c1 c2 : Option α} {x : α}
    (h1 : ∀ y, c1 = some y → p y) (h2 : ∀ y, c2 = some y → p y)
    (h : (c1 <|> c2) = some x) : p x := by
  cases c1 with
  | none =>
    rw [Option.none_orElse] at h
    exact h2 x h
  | some y =>
    rw [Option.some_orElse] at h
    cases h
    exact h1 _ rfl

/-- `createLeg1Signal` records its `source` argument verbatim. -/
theorem createLeg1Signal_source (cfg : DipArbConfig) (round : DipArbRoundState)
    (mk : DipArbMarketConfig) (side : DipArbSide) (price opp : ℚ) (src : SignalSource)
    (drop : ℚ) (ref : Option ℚ) :
    (createLeg1Signal cfg round mk side price opp src drop ref).source = src := rfl

/-- A mispricing candidate, when it fires, carries source `mispricing`. -/
theorem leg1MispricingCandidate_source {cfg : DipArbConfig} {round : DipArbRoundState}
    {mk : DipArbMarketConfig} {side : DipArbSide} {price opp mis : ℚ}
    {sig : DipArbLeg1Signal}
    (h : leg1MispricingCandidate cfg round mk side price opp mis = some sig) :
    sig.source = SignalSource.mispricing := by
  unfold leg1MispricingCandidate validatedOrNone at h
  split at h
  · split at h
    · cases h
      rfl
    · exact absurd h (by simp)
  · exact absurd h (by simp)

/-- C6 amended: when no ring entry lies at or before
`now − slidingWindowMs`, no dip and no surge signal can be produced on
that update; any Leg1 signal still emitted comes from the mispricing
pattern, which does not consult the history. -/
theorem claim6_amended (s : EngineState) (now : ℤ)
    (h : histRefEntry s.priceHistory (now - s.config.slidingWindowMs) = none)
    (sig : DipArbLeg1Signal) (hs : detectLeg1Signal s now = some sig) :
    sig.source = SignalSource.mispricing := by
  have hnoneU : getPriceFromHistory s.priceHistory .UP s.config.slidingWindowMs now = none := by
    unfold getPriceFromHistory
    rw [h]
    rfl
  have hnoneD : getPriceFromHistory s.priceHistory .DOWN s.config.slidingWindowMs now = none := by
    unfold getPriceFromHistory
    rw [h]
    rfl
  unfold detectLeg1Signal at hs
  cases hr : s.currentRound with
  | none =>
    rw [hr] at hs
    exact absurd hs (by simp)
  | some round =>
    cases hm : s.market with
    | none =>
      simp only [hr, hm] at hs
      exact absurd hs (by simp)
    | some mk =>
      simp only [hr, hm] at hs
      split at hs
      · exact absurd hs (by simp)
      · split at hs
        · exact absurd hs (by simp)
        · rw [hnoneU, hnoneD] at hs
          simp only [leg1DipCandidate, Option.none_orElse] at hs
          cases henable : s.config.enableSurge <;>
            simp only [henable, Option.none_orElse] at hs <;>
            split at hs <;>
            first
              | exact absurd hs (by simp)
              | exact @orElse_source _ (fun g => g.source = SignalSource.mispricing) _ _ _
                  (fun y hy => leg1MispricingCandidate_source hy)
                  (fun y hy => leg1MispricingCandidate_source hy) hs

/-! ## C4 amended: dip-signal gates and contents -/

/-- Validation passes for a signal with admissible price and drop. -/
theorem validateSignalProfitability_true {cfg : DipArbConfig} {sig : DipArbLeg1Signal}
    (h1 : 0 < sig.currentPrice) (h2 : sig.currentPrice < 1)
    (h3 : cfg.dipThreshold ≤ sig.dropPercent) :
    validateSignalProfitability cfg sig = true := by
  unfold validateSignalProfitability
  rw [if_neg (not_or.mpr ⟨not_le.mpr h1, not_le.mpr h2⟩), if_neg (not_lt.mpr h3)]

/-- A dip candidate fires exactly the created signal when the reference is
positive, the drop reaches the threshold and the price is in (0, 1). -/
theorem leg1DipCandidate_fires {cfg : DipArbConfig} {round : DipArbRoundState}
    {mk : DipArbMarketConfig} {side : DipArbSide} {price opp refp : ℚ}
    (hrefpos : 0 < refp) (hdrop : cfg.dipThreshold ≤ (refp - price) / refp)
    (hp0 : 0 < price) (hp1 : price < 1) :
    leg1DipCandidate cfg round mk side price opp (some refp)
      = some (createLeg1Signal cfg round mk side price opp .dip
          ((refp - price) / refp) (some refp)) := by
  unfold leg1DipCandidate validatedOrNone
  dsimp only
  rw [if_pos hrefpos, if_pos hdrop,
    if_pos (validateSignalProfitability_true hp0 hp1 hdrop)]

/-- C4 amended: in the waiting phase and inside the admission window, with
both current asks < 1 and both round open prices > 0, an UP dip signal is
emitted whenever the UP ring reference exists, is positive, the relative
drop reaches `dipThreshold` and `0 < upAsk`; the DOWN side fires under
the same conditions when the UP dip branch produced nothing (UP is
evaluated first).  The emitted signal records `openPrice = ref`,
`dropPercent = (ref−current)/ref`, `targetPrice = current·(1+maxSlippage)`,
`oppositeAsk` = the other side's best ask,
`estimatedTotalCost = targetPrice + oppositeAsk`, and
`estimatedProfitRate = calculateDipArbProfitRate estimatedTotalCost`
(that is `(1−c)/c` clamped to 0 when `c ≥ 1` or `c ≤ 0`). -/
theorem claim4_amended (s : EngineState) (now : ℤ) (mk : DipArbMarketConfig)
    (round : DipArbRoundState)
    (hm : s.market = some mk) (hr : s.currentRound = some round)
    (hph : round.phase = DipArbPhase.waiting)
    (hwin : ((now - round.startTime : ℤ) : ℚ) / 60000 ≤ s.config.windowMinutes)
    (hup1 : bestAskD s.upAsks 1 < 1) (hdown1 : bestAskD s.downAsks 1 < 1)
    (hou : 0 < round.openUp) (hod : 0 < round.openDown) :
    (∀ refU : ℚ,
      getPriceFromHistory s.priceHistory .UP s.config.slidingWindowMs now = some refU →
      0 < refU → 0 < bestAskD s.upAsks 1 →
      s.config.dipThreshold ≤ (refU - bestAskD s.upAsks 1) / refU →
      detectSignal s now = some (.leg1 (createLeg1Signal s.config round mk .UP
        (bestAskD s.upAsks 1) (bestAskD s.downAsks 1) .dip
        ((refU - bestAskD s.upAsks 1) / refU) (some refU)))) ∧
    (∀ refD : ℚ,
      leg1DipCandidate s.config round mk .UP (bestAskD s.upAsks 1) (bestAskD s.downAsks 1)
        (getPriceFromHistory s.priceHistory .UP s.config.slidingWindowMs now) = none →
      getPriceFromHistory s.priceHistory .DOWN s.config.slidingWindowMs now = some refD →
      0 < refD → 0 < bestAskD s.downAsks 1 →
      s.config.dipThreshold ≤ (refD - bestAskD s.downAsks 1) / refD →
      detectSignal s now = some (.leg1 (createLeg1Signal s.config round mk .DOWN
        (bestAskD s.downAsks 1) (bestAskD s.upAsks 1) .dip
        ((refD - bestAskD s.downAsks 1) / refD) (some refD)))) ∧
    (∀ (side : DipArbSide) (price opp drop refp : ℚ),
      (createLeg1Signal s.config round mk side price opp .dip drop (some refp)).openPrice
          = refp ∧
      (createLeg1Signal s.config round mk side price opp .dip drop (some refp)).dropPercent
          = drop ∧
      (createLeg1Signal s.config round mk side price opp .dip drop (some refp)).currentPrice
          = price ∧
      (createLeg1Signal s.config round mk side price opp .dip drop (some refp)).targetPrice
          = price * (1 + s.config.maxSlippage) ∧
      (createLeg1Signal s.config round mk side price opp .dip drop (some refp)).oppositeAsk
          = opp ∧
      (createLeg1Signal s.config round mk side price opp .dip drop (some refp)).estimatedTotalCost
          = price * (1 + s.config.maxSlippage) + opp ∧
      (createLeg1Signal s.config round mk side price opp .dip drop (some refp)).estimatedProfitRate
          = calculateDipArbProfitRate (price * (1 + s.config.maxSlippage) + opp) ∧
      (createLeg1Signal s.config round mk side price opp .dip drop (some refp)).shares
          = s.config.shares ∧
      (createLeg1Signal s.config round mk side price opp .dip drop (some refp)).tokenId
          = sideTokenId mk side ∧
      (createLeg1Signal s.config round mk side price opp .dip drop (some refp)).source
          = SignalSource.dip) := by
  have hgates : ¬ (1 ≤ bestAskD s.upAsks 1 ∨ 1 ≤ bestAskD s.downAsks 1 ∨
      round.openUp ≤ 0 ∨ round.openDown ≤ 0) := by
    push_neg
    exact ⟨hup1, hdown1, hou, hod⟩
  refine ⟨?_, ?_, ?_⟩
  · intro refU href hrefpos hupPos hdrop
    have hdet : detectLeg1Signal s now = some (createLeg1Signal s.config round mk .UP
        (bestAskD s.upAsks 1) (bestAskD s.downAsks 1) .dip
        ((refU - bestAskD s.upAsks 1) / refU) (some refU)) := by
      unfold detectLeg1Signal
      simp only [hr, hm, href]
      rw [if_neg (not_lt.mpr hwin), if_neg hgates,
        leg1DipCandidate_fires hrefpos hdrop hupPos hup1, Option.some_orElse]
    unfold detectSignal
    simp only [hr, hm, hph, hdet, Option.map]
  · intro refD hnoUp href hrefpos hdownPos hdrop
    have hdet : detectLeg1Signal s now = some (createLeg1Signal s.config round mk .DOWN
        (bestAskD s.downAsks 1) (bestAskD s.upAsks 1) .dip
        ((refD - bestAskD s.downAsks 1) / refD) (some refD)) := by
      unfold detectLeg1Signal
      simp only [hr, hm, href]
      rw [if_neg (not_lt.mpr hwin), if_neg hgates]
      rw [show getPriceFromHistory s.priceHistory DipArbSide.UP s.config.slidingWindowMs now
            = getPriceFromHistory s.priceHistory DipArbSide.UP s.config.slidingWindowMs now
          from rfl] at hnoUp
      rw [hnoUp, Option.none_orElse,
        leg1DipCandidate_fires hrefpos hdrop hdownPos hdown1, Option.some_orElse]
    unfold detectSignal
    simp only [hr, hm, hph, hdet, Option.map]
  · intro side price opp drop refp
    exact ⟨rfl, rfl, rfl, rfl, rfl, rfl, rfl, rfl, rfl, rfl⟩

/-- C4 witness: `wit4State` at t = 4s emits the UP dip signal through the
amended conditions (ref 0.50, current 0.40, drop 20%). -/
theorem claim4_witness : (detectSignal wit4State 4000).isSome = true := by
  have h := (claim4_amended wit4State 4000 mkFix wit4Round rfl rfl rfl
      (by with_unfolding_all decide) (by with_unfolding_all decide)
      (by with_unfolding_all decide) (by with_unfolding_all decide)
      (by with_unfolding_all decide)).1 (1/2)
    (by with_unfolding_all decide) (by with_unfolding_all decide)
    (by with_unfolding_all decide) (by with_unfolding_all decide)
  rw [h]
  rfl

/-- C6 witness: `cex6State` has no usable ring reference and still emits a
signal; the amended claim pins its source to `mispricing`. -/
theorem claim6_witness :
    histRefEntry cex6State.priceHistory (1000 - cex6State.config.slidingWindowMs) = none ∧
    cex6Sig.source = SignalSource.mispricing :=
  ⟨by with_unfolding_all decide,
   claim6_amended cex6State 1000 (by with_unfolding_all decide) cex6Sig
     (by with_unfolding_all decide)⟩

/-! ## C5 amended: the orderbook-driven flow is phase-monotone -/

/-- The ask-cache refresh never touches the round. -/
theorem updateAskCache_currentRound (s : EngineState) (book : BookUpdate)
    (mk : DipArbMarketConfig) :
    (updateAskCache s book mk).currentRound = s.currentRound := by
  unfold updateAskCache
  split
  · rfl
  · split
    · rfl
    · rfl

/-- Recording price history never touches the round. -/
theorem recordPriceHistory_currentRound (s : EngineState) (now : ℤ) :
    (recordPriceHistory s now).currentRound = s.currentRound := by
  unfold recordPriceHistory
  dsimp only
  split
  · rfl
  · rfl

/-- `detectSignal` yields a Leg2 signal only when the round is
`leg1_filled`. -/
theorem detectSignal_leg2_phase {s : EngineState} {now : ℤ} {l : DipArbLeg2Signal}
    (h : detectSignal s now = some (.leg2 l)) :
    s.currentRound.map (·.phase) = some DipArbPhase.leg1_filled := by
  unfold detectSignal at h
  cases hr : s.currentRound with
  | none =>
    rw [hr] at h
    exact absurd h (by simp)
  | some round =>
    cases hm : s.market with
    | none =>
      simp only [hr, hm] at h
      exact absurd h (by simp)
    | some mk =>
      simp only [hr, hm] at h
      cases hph : round.phase <;> simp only [hph] at h
      · exfalso
        cases hd : detectLeg1Signal s now <;> rw [hd] at h <;> simp at h
      · simp [hph]
      · exact absurd h (by simp)
      · exact absurd h (by simp)

/-- `executeLeg1` leaves the round phase unchanged or sets `leg1_filled`. -/
theorem executeLeg1Op_round_phase (st : EngineState) (l : DipArbLeg1Signal)
    (ok : Bool) (now : ℤ) :
    (executeLeg1Op st l ok now).1.currentRound.map (·.phase)
        = st.currentRound.map (·.phase) ∨
    (executeLeg1Op st l ok now).1.currentRound.map (·.phase)
        = some DipArbPhase.leg1_filled := by
  unfold executeLeg1Op
  split
  · split
    · right
      rfl
    · left
      rfl
  · left
    rfl

/-- `executeLeg2` leaves the round phase unchanged or sets `completed`. -/
theorem executeLeg2Op_round_phase (st : EngineState) (l : DipArbLeg2Signal)
    (ok : Bool) (now : ℤ) :
    (executeLeg2Op st l ok now).1.currentRound.map (·.phase)
        = st.currentRound.map (·.phase) ∨
    (executeLeg2Op st l ok now).1.currentRound.map (·.phase)
        = some DipArbPhase.completed := by
  unfold executeLeg2Op
  split
  · split
    · right
      rfl
    · left
      rfl
  · left
    rfl

/-- The state component of `handleSignal`, written with the stats bump
factored out. -/
theorem handleSignal_fst (st : EngineState) (sig : DipArbSignal) (now : ℤ) (ok : Bool) :
    (handleSignal st sig now ok).1 =
      (if st.config.autoExecute = true ∧ ¬ st.isExecuting = true then
        if st.config.executionCooldown ≤ now - st.lastExecutionTime then
          match sig with
          | .leg1 l =>
            (executeLeg1Op { st with stats :=
              { st.stats with signalsDetected := st.stats.signalsDetected + 1 } } l ok now).1
          | .leg2 l =>
            (executeLeg2Op { st with stats :=
              { st.stats with signalsDetected := st.stats.signalsDetected + 1 } } l ok now).1
        else { st with stats :=
          { st.stats with signalsDetected := st.stats.signalsDetected + 1 } }
      else { st with stats :=
        { st.stats with signalsDetected := st.stats.signalsDetected + 1 } }) := by
  unfold handleSignal
  dsimp only
  split
  · split
    · cases sig <;> rfl
    · rfl
  · rfl

/-- Handling a signal leaves the round phase unchanged, or fills Leg1
(`leg1_filled`), or fills Leg2 (`completed`). -/
theorem handleSignal_round_phase (st : EngineState) (sig : DipArbSignal) (now : ℤ)
    (ok : Bool) (r : DipArbRoundState) (hr : st.currentRound = some r) :
    (handleSignal st sig now ok).1.currentRound.map (·.phase) = some r.phase ∨
    (handleSignal st sig now ok).1.currentRound.map (·.phase)
        = some DipArbPhase.leg1_filled ∨
    (handleSignal st sig now ok).1.currentRound.map (·.phase)
        = some DipArbPhase.completed := by
  have hst' : ({ st with stats :=
      { st.stats with signalsDetected := st.stats.signalsDetected + 1 } }
      : EngineState).currentRound = some r := hr
  rw [handleSignal_fst]
  split
  · split
    · cases sig with
      | leg1 l =>
        rcases executeLeg1Op_round_phase
            { st with stats :=
              { st.stats with signalsDetected := st.stats.signalsDetected + 1 } }
            l ok now with h | h
        · exact Or.inl (h.trans (by rw [hst']; rfl))
        · exact Or.inr (Or.inl h)
      | leg2 l =>
        rcases executeLeg2Op_round_phase
            { st with stats :=
              { st.stats with signalsDetected := st.stats.signalsDetected + 1 } }
            l ok now with h | h
        · exact Or.inl (h.trans (by rw [hst']; rfl))
        · exact Or.inr (Or.inr h)
    · exact Or.inl (by rw [hst']; rfl)
  · exact Or.inl (by rw [hst']; rfl)

/-- Without a `newRound` event, `checkAndStartNewRound` keeps the round
unchanged or expires a `leg1_filled` round. -/
theorem checkAndStartNewRound_cases (s : EngineState) (now : ℤ) (r : DipArbRoundState)
    (hr : s.currentRound = some r) :
    (checkAndStartNewRound s now).1.currentRound = some r ∨
    (r.phase = DipArbPhase.leg1_filled ∧
      (checkAndStartNewRound s now).1.currentRound
        = some { r with phase := DipArbPhase.expired }) ∨
    (∃ e ∈ (checkAndStartNewRound s now).2, isNewRoundEvent e = true) := by
  unfold checkAndStartNewRound
  cases hm : s.market with
  | none => exact Or.inl hr
  | some mk =>
    simp only [hr]
    by_cases hterm : (r.phase == DipArbPhase.completed || r.phase == DipArbPhase.expired)
        = true
    · by_cases hend : mk.endTime ≤ now
      · have hnl : ¬ (r.phase = DipArbPhase.leg1_filled) := by
          intro hq
          rw [hq] at hterm
          simp at hterm
        rw [if_pos hterm, if_pos hend]
        dsimp only
        simp only [hr]
        rw [if_neg hnl]
        exact Or.inl hr
      · right
        right
        rw [if_pos hterm, if_neg hend]
        dsimp only
        rw [if_neg (by simp [createDipArbRoundState])]
        exact ⟨_, List.mem_singleton_self _, rfl⟩
    · rw [if_neg hterm]
      dsimp only
      simp only [hr]
      by_cases hl1 : r.phase = DipArbPhase.leg1_filled
      · rw [if_pos hl1]
        split
        · right
          left
          exact ⟨hl1, rfl⟩
        · exact Or.inl hr
      · rw [if_neg hl1]
        exact Or.inl hr

/-- Reduction of `handleOrderbookUpdate` once the market is known. -/
theorem handleOrderbookUpdate_eq (s : EngineState) (book : BookUpdate) (now : ℤ)
    (ordOk : Bool) (mk : DipArbMarketConfig) (hm : s.market = some mk) :
    handleOrderbookUpdate s book now ordOk =
      (match detectSignal
          (checkAndStartNewRound (recordPriceHistory (updateAskCache s book mk) now) now).1
          now with
       | some sig =>
         ((handleSignal
            (checkAndStartNewRound (recordPriceHistory (updateAskCache s book mk) now) now).1
            sig now ordOk).1,
          (checkAndStartNewRound (recordPriceHistory (updateAskCache s book mk) now) now).2 ++
          (handleSignal
            (checkAndStartNewRound (recordPriceHistory (updateAskCache s book mk) now) now).1
            sig now ordOk).2)
       | none =>
         ((checkAndStartNewRound (recordPriceHistory (updateAskCache s book mk) now) now).1,
          (checkAndStartNewRound (recordPriceHistory (updateAskCache s book mk) now) now).2)) := by
  unfold handleOrderbookUpdate
  rw [hm]

/-- Equal phases satisfy the monotonicity conclusion. -/
theorem phase_refl_ok (p : DipArbPhase) :
    phaseRank p ≤ phaseRank p ∧ ¬ (p = DipArbPhase.completed ∧ p = DipArbPhase.expired) ∧
    ¬ (p = DipArbPhase.expired ∧ p = DipArbPhase.completed) := by
  cases p <;> simp [phaseRank]

/-- C5 amended: the phase set is `{waiting, leg1_filled, completed,
expired}` by construction, and the orderbook-driven flow (ask-cache
update, history recording, round management with expiry, signal
detection and auto-execution) moves a round's phase only forward along
`waiting → leg1_filled → {completed, expired}` as long as the update did
not replace the round (no `newRound` event).  The public `executeLeg1` /
`executeLeg2` endpoints perform no phase check and are exempt: they can
move a round backwards (see the counterexample). -/
theorem claim5_amended (s : EngineState) (book : BookUpdate) (now : ℤ) (ordOk : Bool)
    (r r' : DipArbRoundState)
    (hr : s.currentRound = some r)
    (hr' : (handleOrderbookUpdate s book now ordOk).1.currentRound = some r')
    (hnew : ∀ e ∈ (handleOrderbookUpdate s book now ordOk).2, isNewRoundEvent e = false) :
    phaseRank r.phase ≤ phaseRank r'.phase ∧
    ¬ (r.phase = DipArbPhase.completed ∧ r'.phase = DipArbPhase.expired) ∧
    ¬ (r.phase = DipArbPhase.expired ∧ r'.phase = DipArbPhase.completed) := by
  cases hm : s.market with
  | none =>
    have he : handleOrderbookUpdate s book now ordOk = (s, []) := by
      unfold handleOrderbookUpdate
      rw [hm]
    rw [he] at hr'
    rw [hr] at hr'
    injection hr' with hr''
    subst hr''
    exact phase_refl_ok r.phase
  | some mk =>
    rw [handleOrderbookUpdate_eq s book now ordOk mk hm] at hr' hnew
    have htr : (recordPriceHistory (updateAskCache s book mk) now).currentRound = some r := by
      rw [recordPriceHistory_currentRound, updateAskCache_currentRound]
      exact hr
    cases hdet : detectSignal
        (checkAndStartNewRound (recordPriceHistory (updateAskCache s book mk) now) now).1
        now with
    | none =>
      rw [hdet] at hr' hnew
      dsimp only at hr' hnew
      rcases checkAndStartNewRound_cases _ now r htr with hsame | ⟨hl1, hexp⟩ | ⟨e, he, het⟩
      · rw [hsame] at hr'
        injection hr' with hr''
        subst hr''
        exact phase_refl_ok r.phase
      · rw [hexp] at hr'
        injection hr' with hr''
        subst hr''
        rw [hl1]
        refine ⟨by simp [phaseRank], ?_, ?_⟩
        · rintro ⟨h1, h2⟩
          cases h1
        · rintro ⟨h1, h2⟩
          cases h1
      · exact absurd (hnew e he) (by simp [het])
    | some sig =>
      rw [hdet] at hr' hnew
      dsimp only at hr' hnew
      rcases checkAndStartNewRound_cases _ now r htr with hsame | ⟨hl1, hexp⟩ | ⟨e, he, het⟩
      · cases sig with
        | leg1 l =>
          have hw := detectSignal_leg1_phase hdet
          rw [hsame] at hw
          simp only [Option.map_some'] at hw
          injection hw with hw
          rw [hw]
          refine ⟨by simp [phaseRank], ?_, ?_⟩
          · rintro ⟨h1, h2⟩
            cases h1
          · rintro ⟨h1, h2⟩
            cases h1
        | leg2 l =>
          have hw := detectSignal_leg2_phase hdet
          rw [hsame] at hw
          simp only [Option.map_some'] at hw
          injection hw with hw
          rcases handleSignal_round_phase _ (DipArbSignal.leg2 l) now ordOk r hsame
            with h | h | h <;>
            (rw [hr'] at h
             simp only [Option.map_some'] at h
             injection h with h
             rw [h, hw]
             refine ⟨by simp [phaseRank], ?_, ?_⟩
             · rintro ⟨h1, h2⟩
               cases h1
             · rintro ⟨h1, h2⟩
               cases h1)
      · exfalso
        cases sig with
        | leg1 l =>
          have hw := detectSignal_leg1_phase hdet
          rw [hexp] at hw
          simp at hw
        | leg2 l =>
          have hw := detectSignal_leg2_phase hdet
          rw [hexp] at hw
          simp at hw
      · exact absurd (hnew e (List.mem_append_left _ he)) (by simp [het])

/-- C5 witness: a waiting-phase update on `wit5State` keeps the same
round, so the phase moves forward trivially (waiting → waiting). -/
theorem claim5_witness :
    phaseRank wit5Round.phase ≤ phaseRank wit5Round.phase ∧
    ¬ (wit5Round.phase = DipArbPhase.completed ∧ wit5Round.phase = DipArbPhase.expired) ∧
    ¬ (wit5Round.phase = DipArbPhase.expired ∧ wit5Round.phase = DipArbPhase.completed) :=
  claim5_amended wit5State ⟨"TOKUP", [⟨1/2, 10⟩]⟩ 1000 true wit5Round wit5Round
    (by with_unfolding_all rfl) (by with_unfolding_all rfl)
    (by
      have hevs : (handleOrderbookUpdate wit5State ⟨"TOKUP", [⟨1/2, 10⟩]⟩ 1000 true).2
          = [] := by
        with_unfolding_all rfl
      rw [hevs]
      intro e he
      cases he)

end PolySdk
